import Mathlib

/-!
Verification of the `search-agent` HTTP service (`src/search-agent.py`).

The service wires two tool callbacks (`web_search`, `scrape_website`) and two
FastAPI handlers (`handle_query`, `handle_scrape`) around an external agent
runtime.  The embedding below models Python values that flow through the
handlers as an inductive type `PyVal`, models the outcome of each external
call (the Brave HTTP request, the agent run) as an explicit outcome type, and
translates each Python function into a total Lean function over those types.
-/

namespace SearchAgent

/-- Model of the Python values that flow through the scrape path:
strings, `None`, dicts (association lists, first match wins, as Python dict
keys are unique), and an opaque catch-all carrying the value's `type()` string
and its `str()` rendering. -/
inductive PyVal where
  | str (s : String)
  | pynone
  | dict (entries : List (String × PyVal))
  | other (tyName : String) (strRender : String)

/-- Python dict lookup `d[k]` / membership `k in d`, on the association-list
model: first entry with the key. -/
def dictGet : List (String × PyVal) → String → Option PyVal
  | [], _ => none
  | (k2, v) :: rest, k => if k2 = k then some v else dictGet rest k

mutual

/-- Python `repr` of a modelled value (string escaping inside `repr` of a
string is not modelled; no claim depends on it). -/
def pyRepr : PyVal → String
  | .str s => "'" ++ s ++ "'"
  | .pynone => "None"
  | .other _ r => r
  | .dict es => "\x7b" ++ pyReprEntries es ++ "\x7d"

/-- Comma-separated renderings of dict entries, each rendered as the quoted
key, a colon, and the `repr` of the value. -/
def pyReprEntries : List (String × PyVal) → String
  | [] => ""
  | [(k, v)] => "'" ++ k ++ "': " ++ pyRepr v
  | (k, v) :: rest => "'" ++ k ++ "': " ++ pyRepr v ++ ", " ++ pyReprEntries rest

end

/-- Python `str()` of a modelled value. -/
def pyStr : PyVal → String
  | .str s => s
  | v => pyRepr v

/-- Python `type(v)` rendered as in an f-string, e.g. `<class 'str'>`. -/
def pyTypeName : PyVal → String
  | .str _ => "<class 'str'>"
  | .pynone => "<class 'NoneType'>"
  | .dict _ => "<class 'dict'>"
  | .other t _ => t

/-- Python string slice `s[:n]`. -/
def pySlice (s : String) (n : Nat) : String := ⟨s.data.take n⟩

/-- Python `s.startswith(pat)` on the character-list representation. -/
def beginsList : List Char → List Char → Bool
  | [], _ => true
  | _ :: _, [] => false
  | p :: ps, c :: cs => p == c && beginsList ps cs

/-- Python `s.startswith(pat)`. -/
def pyStartsWith (s pat : String) : Bool := beginsList pat.data s.data

/-- Outcome of an agent run (`await agent.run(...)`): either it raises an
exception carrying message `msg`, or it completes with a value. -/
inductive RunOutcome where
  | raises (msg : String)
  | completes (val : PyVal)

/-- The `scrape_website` tool callback (src/search-agent.py lines 94-140):
the inner agent run either raises (caught by the blanket `except`, line 135,
turned into the descriptive error string of line 140) or completes with a
result whose shape is inspected: a dict with a `markdown` key returns that
value (line 121), else a dict with an `error` key returns the
`Error from firecrawl_scrape:` string (line 123), else a dict returns the
`Unexpected response structure` string built from `str(result)[:100]`
(line 129), and a non-dict returns the `Unexpected response type` string
(line 133). -/
def scrape_website (url : String) (run : RunOutcome) : PyVal :=
  match run with
  | .raises e =>
      .str ("Error occurred within scrape_website tool while trying to scrape URL '"
        ++ url ++ "': " ++ e)
  | .completes result =>
      match result with
      | .dict entries =>
          match dictGet entries "markdown" with
          | some v => v
          | none =>
              match dictGet entries "error" with
              | some e => .str ("Error from firecrawl_scrape: " ++ pyStr e)
              | none =>
                  .str ("Unexpected response structure from scraping service: "
                    ++ pySlice (pyStr (.dict entries)) 100 ++ "...")
      | v => .str ("Unexpected response type from scraping service: " ++ pyTypeName v)

/-- Result of a FastAPI handler: a 200 JSON body, or an `HTTPException` with
status 500 and the given `detail`. -/
inductive HandlerResult where
  | ok (content : PyVal)
  | err500 (detail : String)

/-- The `/query` handler (src/search-agent.py lines 165-183): returns the
agent result as the response on completion, and on any exception returns a
500 whose detail is `f"An error occurred: {e}"` (line 183).  Pydantic
validation of the 200 response model is outside the model. -/
def handle_query (run : RunOutcome) : HandlerResult :=
  match run with
  | .completes d => .ok d
  | .raises e => .err500 ("An error occurred: " ++ e)

/-- The error-prefix sentinel test of the `/scrape` handler
(src/search-agent.py lines 214-218): the final string starts with one of the
three known tool-error prefixes. -/
def isErrorSentinel (s : String) : Bool :=
  pyStartsWith s "Error from firecrawl_scrape:" ||
  pyStartsWith s "Error occurred within scrape_website tool" ||
  pyStartsWith s "Unexpected response"

/-- The `/scrape` handler (src/search-agent.py lines 186-240) after the agent
run: a string matching an error sentinel gives a 500 with that string as
detail (line 221); `None` or the empty string gives the fixed 500 detail
(line 225); anything else is returned as a 200 with that content (line 229).
An exception from the agent run is caught and gives the generic 500 of
line 240 (the handler's own `HTTPException`s are re-raised unchanged,
lines 231-233). -/
def handle_scrape (run : RunOutcome) : HandlerResult :=
  match run with
  | .raises e =>
      .err500 ("An unexpected error occurred during the agent-driven scraping process: " ++ e)
  | .completes scraped =>
      match scraped with
      | .str s =>
          if isErrorSentinel s then .err500 s
          else if s = "" then .err500 "Agent failed to return scraped content."
          else .ok (.str s)
      | .pynone => .err500 "Agent failed to return scraped content."
      | v => .ok v

/-- Python truthiness of `os.getenv(...)`: the variable is set and non-empty
(`if not key:` treats both `None` and `""` as missing). -/
def truthyEnv : Option String → Bool
  | none => false
  | some s => !(s == "")

/-- One Brave search result item: a dict from which `title` and `url` are
read with `.get(..., default)`. -/
structure BraveResult where
  title : Option String
  url : Option String
deriving DecidableEq

/-- The `web` object of the Brave response body, whose `results` key is read
with `.get('results', [])`. -/
structure BraveWeb where
  results : Option (List BraveResult)
deriving DecidableEq

/-- The Brave response body, whose `web` key is read with `.get('web', {})`. -/
structure BraveData where
  web : Option BraveWeb
deriving DecidableEq

/-- `data.get('web', {}).get('results', [])` (src/search-agent.py line 75). -/
def extractResults (data : BraveData) : List BraveResult :=
  match data.web with
  | none => []
  | some w => w.results.getD []

/-- `result.get('title', 'No Title')` (src/search-agent.py line 82). -/
def titleD (r : BraveResult) : String := r.title.getD "No Title"

/-- `result.get('url', 'No URL')` (src/search-agent.py line 83). -/
def urlD (r : BraveResult) : String := r.url.getD "No URL"

/-- Python whitespace as stripped by `str.strip()`. -/
def isWS (c : Char) : Bool := c.isWhitespace

/-- Python `str.strip()`: drop whitespace from both ends. -/
def pyStrip (s : String) : String :=
  ⟨((s.data.dropWhile isWS).reverse.dropWhile isWS).reverse⟩

/-- The numbered line `f"{i+1}. {title}"` of src/search-agent.py line 84,
for the result at 0-based index `i`. -/
def nLine (i : Nat) (r : BraveResult) : String :=
  toString (i + 1) ++ ". " ++ titleD r

/-- The URL line `f"   {url}"` of src/search-agent.py line 84. -/
def uLine (r : BraveResult) : String :=
  "   " ++ urlD r

/-- The accumulation loop of src/search-agent.py lines 81-84:
`formatted_results += f"{i+1}. {title}\n   {url}\n"` over `enumerate(results)`
starting at index `i`; the f-string is split at its two line breaks. -/
def formatBody : List BraveResult → Nat → String
  | [], _ => ""
  | r :: rs, i =>
      nLine i r ++ "\n" ++ uLine r ++ "\n" ++ formatBody rs (i + 1)

/-- The lines the loop of src/search-agent.py lines 81-84 emits for the
results starting at 0-based index `i`: for each result its numbered title
line followed by its URL line. -/
def numberedLines : List BraveResult → Nat → List String
  | [], _ => []
  | r :: rs, i => nLine i r :: uLine r :: numberedLines rs (i + 1)

/-- Join a list of lines with single newlines (no trailing newline). -/
def joinLines : List String → String
  | [] => ""
  | [l] => l
  | l :: l2 :: rest => l ++ "\n" ++ joinLines (l2 :: rest)

/-- Split a character list at `'\n'`, accumulating the current line reversed. -/
def splitLinesAux : List Char → List Char → List String
  | [], acc => [⟨acc.reverse⟩]
  | c :: cs, acc =>
      if c = '\n' then ⟨acc.reverse⟩ :: splitLinesAux cs []
      else splitLinesAux cs (c :: acc)

/-- The lines of a string: split at every `'\n'`. -/
def splitLines (s : String) : List String := splitLinesAux s.data []

/-- The string is non-empty and its last character is not whitespace (so
`str.strip()` does not eat into it). -/
def endsNonWS (s : String) : Bool :=
  match s.data.reverse with
  | [] => false
  | c :: _ => !isWS c

/-- Well-formedness of one search result for line counting: its title and
URL renderings contain no newline, and the URL ends in a non-whitespace
character. -/
def cleanResult (r : BraveResult) : Prop :=
  '\n' ∉ (titleD r).data ∧ '\n' ∉ (urlD r).data ∧ endsNonWS (urlD r) = true

instance (r : BraveResult) : Decidable (cleanResult r) := by
  unfold cleanResult; infer_instance

/-- Outcome of the outbound Brave HTTP request (src/search-agent.py
lines 71-74): a non-2xx status makes `raise_for_status` raise an `HTTPError`
(a `RequestException`, caught at line 88); any other `RequestException`
(network error, timeout) is caught at line 88; any other exception (e.g. from
`response.json()`) is caught at line 90; otherwise the parsed JSON body is
available. -/
inductive UpstreamOutcome where
  | badStatus (code : Nat) (msg : String)
  | requestException (msg : String)
  | otherException (msg : String)
  | success (data : BraveData)

/-- The `web_search` tool callback (src/search-agent.py lines 41-91).  The
`count` argument is sent to the upstream API as a request parameter
(line 67) and is not otherwise used.  A missing/empty `BRAVE_API_KEY` returns
the fixed error string (line 57); request-level failures return the
`Error during Brave Search API request:` string (line 89); any other
exception returns the `An unexpected error occurred during web search:`
string (line 91); zero extracted results return the no-results sentinel
(line 78); otherwise the numbered list is built and `.strip()`ped
(lines 80-86). -/
def web_search (braveKey : Option String) (query : String) (count : Nat)
    (outcome : UpstreamOutcome) : String :=
  if truthyEnv braveKey = false then
    "Error: BRAVE_API_KEY not found in environment variables."
  else
    match outcome with
    | .badStatus _ msg => "Error during Brave Search API request: " ++ msg
    | .requestException msg => "Error during Brave Search API request: " ++ msg
    | .otherException msg => "An unexpected error occurred during web search: " ++ msg
    | .success data =>
        let results := extractResults data
        if results = [] then
          "No search results found for '" ++ query ++ "'."
        else
          pyStrip ("Search Results:\n" ++ formatBody results 0)

/-- Result of running the whole process: the import-time `RuntimeError` of
src/search-agent.py lines 16-18, a printed refusal in `__main__`
(lines 250-255), or reaching `uvicorn.run` (line 257). -/
inductive StartupResult where
  | importError (msg : String)
  | startupRefused (msg : String)
  | serverStarted
deriving DecidableEq

/-- The message of the `RuntimeError` raised at import time
(src/search-agent.py line 18). -/
def firecrawlMissingMsg : String :=
  "FIRECRAWL_API_KEY is not set. Please ensure it is present in agents/search-agent/.env before starting the server."

/-- Process startup (src/search-agent.py lines 14-18 and 245-257): the
import-time check raises if `FIRECRAWL_API_KEY` is missing/empty; otherwise
`__main__` checks `GOOGLE_API_KEY`, then `BRAVE_API_KEY`, then
`FIRECRAWL_API_KEY` again (unreachable, kept for fidelity), printing a
refusal for the first missing one; only when all are present does control
reach `uvicorn.run`. -/
def startup (googleKey braveKey firecrawlKey : Option String) : StartupResult :=
  if truthyEnv firecrawlKey = false then
    .importError firecrawlMissingMsg
  else if truthyEnv googleKey = false then
    .startupRefused "ERROR: GOOGLE_API_KEY not found in .env file. Server cannot start."
  else if truthyEnv braveKey = false then
    .startupRefused "ERROR: BRAVE_API_KEY not found in .env file. Server cannot start."
  else if truthyEnv firecrawlKey = false then
    .startupRefused "ERROR: FIRECRAWL_API_KEY not found in .env file. Server cannot start."
  else
    .serverStarted

/-- Claim-side predicate: the value is a string that begins with `p`
(Python's `isinstance(v, str) and v.startswith(p)`). -/
def beginsWithStr (v : PyVal) (p : String) : Bool :=
  match v with
  | .str s => pyStartsWith s p
  | _ => false

/-- A list begins with itself followed by anything. -/
theorem beginsList_append (p rest : List Char) : beginsList p (p ++ rest) = true := by
  induction p with
  | nil => rfl
  | cons c cs ih => simp [beginsList, ih]

/-- Two strings with the same character data are equal. -/
theorem strExt {a b : String} (h : a.data = b.data) : a = b := by
  cases a; cases b; exact congrArg String.mk h

/-- Character data of the empty string literal. -/
theorem data_empty : ("" : String).data = [] := rfl

/-- Character data of the newline literal. -/
theorem data_newline : ("\n" : String).data = ['\n'] := rfl

/-- No decimal digit character is a newline. -/
theorem digitChar_ne_newline (n : Nat) : Nat.digitChar n ≠ '\n' := by
  match n with
  | 0 | 1 | 2 | 3 | 4 | 5 | 6 | 7 | 8 | 9 | 10 | 11 | 12 | 13 | 14 | 15 => decide
  | (m + 16) =>
    unfold Nat.digitChar
    repeat rw [if_neg (by omega)]
    decide

/-- `Nat.toDigitsCore` only ever adds digit characters to its accumulator. -/
theorem toDigitsCore_ne_newline (b : Nat) (fuel : Nat) :
    ∀ (n : Nat) (acc : List Char), (∀ c ∈ acc, c ≠ '\n') →
      ∀ c ∈ Nat.toDigitsCore b fuel n acc, c ≠ '\n' := by
  induction fuel with
  | zero =>
      intro n acc hacc c hc
      exact hacc c hc
  | succ fuel ih =>
      intro n acc hacc c hc
      unfold Nat.toDigitsCore at hc
      dsimp only at hc
      have hcons : ∀ d ∈ Nat.digitChar (n % b) :: acc, d ≠ '\n' := by
        intro d hd
        rcases List.mem_cons.mp hd with hd | hd
        · exact hd ▸ digitChar_ne_newline _
        · exact hacc d hd
      by_cases hz : n / b = 0
      · rw [if_pos hz] at hc
        exact hcons c hc
      · rw [if_neg hz] at hc
        exact ih (n / b) (Nat.digitChar (n % b) :: acc) hcons c hc

/-- The decimal rendering of a natural number contains no newline. -/
theorem natToString_ne_newline (n : Nat) : '\n' ∉ (toString n).data := by
  intro h
  have hdata : (toString n).data = Nat.toDigitsCore 10 (n + 1) n [] := rfl
  rw [hdata] at h
  exact toDigitsCore_ne_newline 10 (n + 1) n [] (by simp) '\n' h rfl

/-- Packing the data of a string back up gives the same string. -/
theorem mk_data (s : String) : String.mk s.data = s := rfl

/-- `numberedLines` of a non-empty list is non-empty. -/
theorem numberedLines_ne_nil (r : BraveResult) (rs : List BraveResult) (i : Nat) :
    numberedLines (r :: rs) i ≠ [] := by
  simp [numberedLines]

/-- `numberedLines` emits exactly two lines per result. -/
theorem numberedLines_length (rs : List BraveResult) (i : Nat) :
    (numberedLines rs i).length = 2 * rs.length := by
  induction rs generalizing i with
  | nil => rfl
  | cons r rs ih =>
      simp only [numberedLines, List.length_cons, ih, List.length]
      omega

/-- Appending one result appends its two lines, numbered after the rest. -/
theorem numberedLines_append (rs : List BraveResult) (r : BraveResult) (i : Nat) :
    numberedLines (rs ++ [r]) i =
      numberedLines rs i ++ [nLine (i + rs.length) r, uLine r] := by
  induction rs generalizing i with
  | nil => simp [numberedLines]
  | cons a rs ih =>
      show nLine i a :: uLine a :: numberedLines (rs ++ [r]) (i + 1) =
        nLine i a :: uLine a ::
          (numberedLines rs (i + 1) ++ [nLine (i + (a :: rs).length) r, uLine r])
      rw [ih (i + 1)]
      have harith : i + 1 + rs.length = i + (a :: rs).length := by
        simp only [List.length_cons]; omega
      rw [harith]

/-- `joinLines` over a cons with a non-empty tail. -/
theorem joinLines_cons (a : String) (ls : List String) (h : ls ≠ []) :
    joinLines (a :: ls) = a ++ "\n" ++ joinLines ls := by
  cases ls with
  | nil => contradiction
  | cons b rest => rfl

/-- `formatBody` is the newline-join of its lines followed by one trailing
newline. -/
theorem formatBody_eq (rs : List BraveResult) (i : Nat) (h : rs ≠ []) :
    formatBody rs i = joinLines (numberedLines rs i) ++ "\n" := by
  induction rs generalizing i with
  | nil => contradiction
  | cons r rs ih =>
      cases rs with
      | nil =>
          apply strExt
          simp [formatBody, numberedLines, joinLines, data_empty, data_newline]
      | cons r2 rs2 =>
          have hne2 : numberedLines (r2 :: rs2) (i + 1) ≠ [] := numberedLines_ne_nil _ _ _
          have hu : (uLine r :: numberedLines (r2 :: rs2) (i + 1) : List String) ≠ [] := by simp
          calc formatBody (r :: r2 :: rs2) i
              = nLine i r ++ "\n" ++ uLine r ++ "\n" ++ formatBody (r2 :: rs2) (i + 1) := rfl
            _ = nLine i r ++ "\n" ++ uLine r ++ "\n" ++
                  (joinLines (numberedLines (r2 :: rs2) (i + 1)) ++ "\n") := by
                rw [ih (i + 1) (by simp)]
            _ = joinLines (numberedLines (r :: r2 :: rs2) i) ++ "\n" := by
                show _ = joinLines (nLine i r :: uLine r ::
                  numberedLines (r2 :: rs2) (i + 1)) ++ "\n"
                rw [joinLines_cons _ _ hu, joinLines_cons _ _ hne2]
                apply strExt
                simp [data_newline, List.append_assoc]

/-- A chunk without a newline is one whole line for the splitter. -/
theorem splitLinesAux_no_nl (x : List Char) (acc : List Char) (hx : '\n' ∉ x) :
    splitLinesAux x acc = [⟨acc.reverse ++ x⟩] := by
  induction x generalizing acc with
  | nil => simp [splitLinesAux]
  | cons c cs ih =>
      have hc : ¬(c = '\n') := fun h => hx (by simp [h])
      rw [splitLinesAux, if_neg hc, ih (c :: acc) (fun h => hx (List.mem_cons_of_mem _ h))]
      simp

/-- The splitter cuts at the first newline after a newline-free chunk. -/
theorem splitLinesAux_append (x rest : List Char) (acc : List Char) (hx : '\n' ∉ x) :
    splitLinesAux (x ++ '\n' :: rest) acc = ⟨acc.reverse ++ x⟩ :: splitLinesAux rest [] := by
  induction x generalizing acc with
  | nil => simp [splitLinesAux]
  | cons c cs ih =>
      have hc : ¬(c = '\n') := fun h => hx (by simp [h])
      rw [List.cons_append, splitLinesAux, if_neg hc,
          ih (c :: acc) (fun h => hx (List.mem_cons_of_mem _ h))]
      simp

/-- Splitting undoes joining when every line is newline-free. -/
theorem splitLines_joinLines (ls : List String) (h : ls ≠ [])
    (hnl : ∀ l ∈ ls, '\n' ∉ l.data) :
    splitLines (joinLines ls) = ls := by
  induction ls with
  | nil => contradiction
  | cons a ls ih =>
      cases ls with
      | nil =>
          show splitLinesAux (joinLines [a]).data [] = [a]
          rw [show joinLines [a] = a from rfl,
              splitLinesAux_no_nl a.data [] (hnl a (by simp))]
          simp [mk_data]
      | cons b rest =>
          show splitLinesAux (joinLines (a :: b :: rest)).data [] = a :: b :: rest
          rw [joinLines_cons a (b :: rest) (by simp)]
          have hdata : (a ++ "\n" ++ joinLines (b :: rest)).data =
              a.data ++ '\n' :: (joinLines (b :: rest)).data := by
            simp [data_newline]
          rw [hdata, splitLinesAux_append a.data _ [] (hnl a (by simp))]
          have hrec : splitLinesAux (joinLines (b :: rest)).data [] = b :: rest :=
            ih (by simp) (fun l hl => hnl l (List.mem_cons_of_mem _ hl))
          rw [hrec]
          simp [mk_data]

/-- Stripping a single trailing newline from a string whose first and last
characters are not whitespace leaves the string unchanged. -/
theorem pyStrip_newline (s : String)
    (h0 : ∃ c0 t, s.data = c0 :: t ∧ isWS c0 = false)
    (h1 : ∃ c q, s.data = q ++ [c] ∧ isWS c = false) :
    pyStrip (s ++ "\n") = s := by
  obtain ⟨c0, t, hst, hc0⟩ := h0
  obtain ⟨c, q, hsq, hc⟩ := h1
  apply strExt
  show (((s ++ "\n").data.dropWhile isWS).reverse.dropWhile isWS).reverse = s.data
  have hd : (s ++ "\n").data = s.data ++ ['\n'] := by simp [data_newline]
  have hA : (s.data ++ ['\n']).dropWhile isWS = s.data ++ ['\n'] := by
    rw [hst, List.cons_append, List.dropWhile_cons]
    simp [hc0]
  have hB : (s.data ++ ['\n']).reverse = '\n' :: s.data.reverse := by simp
  have hC : ('\n' :: s.data.reverse).dropWhile isWS = s.data.reverse.dropWhile isWS := by
    rw [List.dropWhile_cons, if_pos (show isWS '\n' = true by decide)]
  have hD : s.data.reverse.dropWhile isWS = s.data.reverse := by
    rw [hsq]
    have : (q ++ [c]).reverse = c :: q.reverse := by simp
    rw [this, List.dropWhile_cons]
    simp [hc]
  rw [hd, hA, hB, hC, hD, List.reverse_reverse]

/-- The join of lines ending in `l` has data ending in `l.data`. -/
theorem joinLines_append_last (ls : List String) (l : String) :
    ∃ q, (joinLines (ls ++ [l])).data = q ++ l.data := by
  induction ls with
  | nil => exact ⟨[], by simp [joinLines]⟩
  | cons a ls ih =>
      obtain ⟨q, hq⟩ := ih
      refine ⟨a.data ++ '\n' :: q, ?_⟩
      rw [List.cons_append, joinLines_cons a (ls ++ [l]) (by simp)]
      simp [data_newline, hq]

/-- All lines emitted for clean results are newline-free. -/
theorem numberedLines_no_newline (rs : List BraveResult) (i : Nat)
    (hclean : ∀ r ∈ rs, cleanResult r) :
    ∀ l ∈ numberedLines rs i, '\n' ∉ l.data := by
  induction rs generalizing i with
  | nil => intro l hl; simp [numberedLines] at hl
  | cons r rs ih =>
      intro l hl
      have hr : cleanResult r := hclean r (by simp)
      rcases List.mem_cons.mp hl with hl | hl
      · subst hl
        intro hmem
        simp only [nLine, String.data_append, List.mem_append] at hmem
        rcases hmem with (hmem | hmem) | hmem
        · exact natToString_ne_newline (i + 1) hmem
        · exact absurd hmem (by decide)
        · exact hr.1 hmem
      · rcases List.mem_cons.mp hl with hl | hl
        · subst hl
          intro hmem
          simp only [uLine, String.data_append, List.mem_append] at hmem
          rcases hmem with hmem | hmem
          · exact absurd hmem (by decide)
          · exact hr.2.1 hmem
        · exact ih (i + 1) (fun r2 h2 => hclean r2 (List.mem_cons_of_mem _ h2)) l hl

/-- Core line-structure lemma: stripping the formatted output and splitting
it at newlines yields the header line followed by the numbered lines of all
the results. -/
theorem splitLines_strip_format (rs : List BraveResult) (hne : rs ≠ [])
    (hclean : ∀ r ∈ rs, cleanResult r) :
    splitLines (pyStrip ("Search Results:\n" ++ formatBody rs 0)) =
      "Search Results:" :: numberedLines rs 0 := by
  obtain ⟨r0, rs', hcons⟩ : ∃ r0 rs', rs = r0 :: rs' := by
    cases rs with
    | nil => exact absurd rfl hne
    | cons r0 rs' => exact ⟨r0, rs', rfl⟩
  have hnl_ne : numberedLines rs 0 ≠ [] := by
    rw [hcons]; exact numberedLines_ne_nil r0 rs' 0
  have hjoin : "Search Results:\n" ++ formatBody rs 0 =
      joinLines ("Search Results:" :: numberedLines rs 0) ++ "\n" := by
    rw [formatBody_eq rs 0 hne, joinLines_cons _ _ hnl_ne]
    apply strExt
    have hSR : ("Search Results:\n" : String).data =
        ("Search Results:" : String).data ++ ['\n'] := rfl
    simp [hSR, data_newline]
  -- first character of the joined lines is the non-whitespace 'S'
  have h0 : ∃ c0 t, (joinLines ("Search Results:" :: numberedLines rs 0)).data = c0 :: t ∧
      isWS c0 = false := by
    refine ⟨'S', "earch Results:".data ++ '\n' :: (joinLines (numberedLines rs 0)).data,
      ?_, by decide⟩
    rw [joinLines_cons _ _ hnl_ne]
    have hS : ("Search Results:" : String).data = 'S' :: "earch Results:".data := rfl
    simp [hS, data_newline]
  -- last character of the joined lines is the last (non-whitespace) character
  -- of the last result's URL line
  have h1 : ∃ c q, (joinLines ("Search Results:" :: numberedLines rs 0)).data = q ++ [c] ∧
      isWS c = false := by
    have hsplit : rs.dropLast ++ [rs.getLast hne] = rs := List.dropLast_append_getLast hne
    have hlastmem : rs.getLast hne ∈ rs := List.getLast_mem hne
    have hcleanL : cleanResult (rs.getLast hne) := hclean _ hlastmem
    obtain ⟨cw, w, hrev, hcw⟩ :
        ∃ cw w, (urlD (rs.getLast hne)).data.reverse = cw :: w ∧ isWS cw = false := by
      have := hcleanL.2.2
      unfold endsNonWS at this
      rcases hcrev : (urlD (rs.getLast hne)).data.reverse with _ | ⟨cw, w⟩
      · rw [hcrev] at this; cases this
      · rw [hcrev] at this
        exact ⟨cw, w, rfl, by simpa using this⟩
    have hurl : (urlD (rs.getLast hne)).data = w.reverse ++ [cw] := by
      have := congrArg List.reverse hrev
      simpa using this
    have hlines : ("Search Results:" :: numberedLines rs 0) =
        ("Search Results:" :: (numberedLines rs.dropLast 0 ++
          [nLine (0 + rs.dropLast.length) (rs.getLast hne)])) ++ [uLine (rs.getLast hne)] := by
      conv_lhs => rw [← hsplit]
      rw [numberedLines_append]
      simp
    obtain ⟨q, hq⟩ := joinLines_append_last
      ("Search Results:" :: (numberedLines rs.dropLast 0 ++
        [nLine (0 + rs.dropLast.length) (rs.getLast hne)])) (uLine (rs.getLast hne))
    refine ⟨cw, q ++ (' ' :: ' ' :: ' ' :: w.reverse), ?_, hcw⟩
    rw [hlines, hq]
    have hu : (uLine (rs.getLast hne)).data = ' ' :: ' ' :: ' ' :: (urlD (rs.getLast hne)).data := by
      simp [uLine, show ("   " : String).data = [' ', ' ', ' '] from rfl]
    rw [hu, hurl]
    simp
  have hlinesnl : ∀ l ∈ "Search Results:" :: numberedLines rs 0, '\n' ∉ l.data := by
    intro l hl
    rcases List.mem_cons.mp hl with hl | hl
    · subst hl; decide
    · exact numberedLines_no_newline rs 0 hclean l hl
  rw [hjoin, pyStrip_newline _ h0 h1,
      splitLines_joinLines _ (by simp) hlinesnl]

/-- C1: when the agent run of the `/scrape` handler completes with a string
that begins with one of the three error-prefix sentinels, the handler returns
HTTP 500 with that exact string as the `detail`, and never a 200. -/
theorem handle_scrape_sentinel_500 (s : String)
    (h : pyStartsWith s "Error from firecrawl_scrape:" = true ∨
         pyStartsWith s "Error occurred within scrape_website tool" = true ∨
         pyStartsWith s "Unexpected response" = true) :
    handle_scrape (.completes (.str s)) = .err500 s ∧
    ∀ c, handle_scrape (.completes (.str s)) ≠ .ok c := by
  have hs : isErrorSentinel s = true := by
    unfold isErrorSentinel
    rcases h with h | h | h <;> simp [h]
  refine ⟨?_, ?_⟩
  · simp [handle_scrape, hs]
  · intro c
    simp [handle_scrape, hs]

/-- Witness for C1 at the concrete string `"Error from firecrawl_scrape: boom"`. -/
theorem handle_scrape_sentinel_500_witness :
    handle_scrape (.completes (.str "Error from firecrawl_scrape: boom")) =
      .err500 "Error from firecrawl_scrape: boom" :=
  (handle_scrape_sentinel_500 "Error from firecrawl_scrape: boom" (Or.inl (by decide))).1

/-- C2: when the scrape tool result is a dict containing the key `markdown`
with value `x`, the `scrape_website` callback returns exactly `x`. -/
theorem scrape_website_markdown (url : String) (entries : List (String × PyVal)) (x : PyVal)
    (h : dictGet entries "markdown" = some x) :
    scrape_website url (.completes (.dict entries)) = x := by
  simp [scrape_website, h]

/-- Witness for C2 at the concrete dict `[("markdown", "hello")]`. -/
theorem scrape_website_markdown_witness :
    scrape_website "https://example.com" (.completes (.dict [("markdown", .str "hello")])) =
      .str "hello" :=
  scrape_website_markdown "https://example.com" [("markdown", .str "hello")] (.str "hello") rfl

/-- C3 counterexample: a dict that contains the key `error` (with value
`"boom"`) but also the key `markdown` makes `scrape_website` return the
markdown value `"M"`, which does not begin with
`"Error from firecrawl_scrape: boom"`, refuting the claim as universally
stated.  (The `markdown` branch is checked first, lines 119-121.) -/
theorem scrape_website_error_counterexample :
    dictGet [("markdown", PyVal.str "M"), ("error", PyVal.str "boom")] "error" =
      some (PyVal.str "boom") ∧
    scrape_website "https://example.com"
      (.completes (.dict [("markdown", PyVal.str "M"), ("error", PyVal.str "boom")])) =
      PyVal.str "M" ∧
    beginsWithStr
      (scrape_website "https://example.com"
        (.completes (.dict [("markdown", PyVal.str "M"), ("error", PyVal.str "boom")])))
      ("Error from firecrawl_scrape: " ++ pyStr (PyVal.str "boom")) = false :=
  ⟨rfl, rfl, by decide⟩

/-- C3 amended: when the scrape tool result is a dict that contains the key
`error` with value `y` and does not contain the key `markdown`, the
`scrape_website` callback returns a string beginning with
`"Error from firecrawl_scrape: "` followed by `str(y)`. -/
theorem scrape_website_error_string (url : String) (entries : List (String × PyVal)) (y : PyVal)
    (hm : dictGet entries "markdown" = none) (he : dictGet entries "error" = some y) :
    scrape_website url (.completes (.dict entries)) =
      .str ("Error from firecrawl_scrape: " ++ pyStr y) ∧
    beginsWithStr (scrape_website url (.completes (.dict entries)))
      "Error from firecrawl_scrape: " = true := by
  have h1 : scrape_website url (.completes (.dict entries)) =
      .str ("Error from firecrawl_scrape: " ++ pyStr y) := by
    simp [scrape_website, hm, he]
  refine ⟨h1, ?_⟩
  rw [h1]
  show pyStartsWith ("Error from firecrawl_scrape: " ++ pyStr y)
    "Error from firecrawl_scrape: " = true
  unfold pyStartsWith
  rw [String.data_append]
  exact beginsList_append _ _

/-- Witness for the amended C3 at the concrete dict `[("error", "boom")]`. -/
theorem scrape_website_error_string_witness :
    scrape_website "https://example.com" (.completes (.dict [("error", PyVal.str "boom")])) =
      .str ("Error from firecrawl_scrape: " ++ pyStr (PyVal.str "boom")) :=
  (scrape_website_error_string "https://example.com" [("error", PyVal.str "boom")]
    (PyVal.str "boom") rfl rfl).1

/-- C4: when the Brave request succeeds but the extracted results list is
empty, `web_search` returns exactly the no-results sentinel, which is not the
empty string. -/
theorem web_search_no_results (braveKey : Option String) (query : String) (count : Nat)
    (data : BraveData) (hk : truthyEnv braveKey = true) (he : extractResults data = []) :
    web_search braveKey query count (.success data) =
      "No search results found for '" ++ query ++ "'." ∧
    web_search braveKey query count (.success data) ≠ "" := by
  have h1 : web_search braveKey query count (.success data) =
      "No search results found for '" ++ query ++ "'." := by
    simp [web_search, hk, he]
  refine ⟨h1, ?_⟩
  rw [h1]
  intro hcontra
  have hdata : ("No search results found for '".data ++ (query.data ++ "'.".data)) =
      ("" : String).data := by
    simpa using congrArg String.data hcontra
  simp only [List.append_eq_nil] at hdata
  exact absurd hdata.1 (by decide)

/-- Witness for C4 with a body that lacks the `web` key. -/
theorem web_search_no_results_witness :
    web_search (some "key") "lean" 5 (.success ⟨none⟩) =
      "No search results found for '" ++ "lean" ++ "'." ∧
    web_search (some "key") "lean" 5 (.success ⟨none⟩) ≠ "" :=
  web_search_no_results (some "key") "lean" 5 ⟨none⟩ (by decide) rfl

/-- C5: for a successful search whose upstream body yields N well-formed
results (no newline inside a title or URL, URL ending in a non-whitespace
character) with N ≤ count, the output of `web_search` splits into exactly
1 + 2N lines: the header, then for each result (in order, numbered from 1)
its numbered title line followed by its URL line. -/
theorem web_search_numbered_output (braveKey : Option String) (query : String) (count : Nat)
    (data : BraveData)
    (hk : truthyEnv braveKey = true)
    (hcount : (extractResults data).length ≤ count)
    (hne : extractResults data ≠ [])
    (hclean : ∀ r ∈ extractResults data, cleanResult r) :
    splitLines (web_search braveKey query count (.success data)) =
      "Search Results:" :: numberedLines (extractResults data) 0 ∧
    (numberedLines (extractResults data) 0).length = 2 * (extractResults data).length := by
  have hws : web_search braveKey query count (.success data) =
      pyStrip ("Search Results:\n" ++ formatBody (extractResults data) 0) := by
    simp [web_search, hk, hne]
  exact ⟨by rw [hws]; exact splitLines_strip_format _ hne hclean,
    numberedLines_length _ 0⟩

/-- Witness for C5 at a concrete two-result response with count 5. -/
theorem web_search_numbered_output_witness :
    splitLines (web_search (some "k") "q" 5 (.success ⟨some ⟨some
      [⟨some "Alpha", some "https://a.example"⟩, ⟨some "Beta", some "https://b.example"⟩]⟩⟩)) =
      "Search Results:" :: numberedLines
        [⟨some "Alpha", some "https://a.example"⟩, ⟨some "Beta", some "https://b.example"⟩] 0 ∧
    (numberedLines
        [⟨some "Alpha", some "https://a.example"⟩, ⟨some "Beta", some "https://b.example"⟩]
        0).length =
      2 * ([⟨some "Alpha", some "https://a.example"⟩,
        ⟨some "Beta", some "https://b.example"⟩] : List BraveResult).length :=
  web_search_numbered_output (some "k") "q" 5
    ⟨some ⟨some [⟨some "Alpha", some "https://a.example"⟩,
      ⟨some "Beta", some "https://b.example"⟩]⟩⟩
    (by decide) (by decide) (by decide) (by decide)

/-- C6 counterexample: with requested count 1 and two upstream results, the
output of `web_search` contains both results, the second one included — the
code formats every result in the response and never truncates to `count`,
refuting the claim that only the first `count` results appear. -/
theorem web_search_count_counterexample :
    web_search (some "k") "q" 1 (.success ⟨some ⟨some
      [⟨some "Alpha", some "uA"⟩, ⟨some "Beta", some "uB"⟩]⟩⟩) =
      "Search Results:\n1. Alpha\n   uA\n2. Beta\n   uB" ∧
    "2. Beta" ∈ splitLines (web_search (some "k") "q" 1 (.success ⟨some ⟨some
      [⟨some "Alpha", some "uA"⟩, ⟨some "Beta", some "uB"⟩]⟩⟩)) := by
  refine ⟨by decide, by decide⟩

/-- C6 amended: `web_search` performs no local truncation: for any requested
`count`, its output lists every result present in the upstream response (the
`count` argument only travels to the upstream API as a request parameter and
has no effect on the formatting). -/
theorem web_search_all_results (braveKey : Option String) (query : String)
    (count count' : Nat) (data : BraveData)
    (hk : truthyEnv braveKey = true)
    (hne : extractResults data ≠ [])
    (hclean : ∀ r ∈ extractResults data, cleanResult r) :
    splitLines (web_search braveKey query count (.success data)) =
      "Search Results:" :: numberedLines (extractResults data) 0 ∧
    web_search braveKey query count (.success data) =
      web_search braveKey query count' (.success data) := by
  have hws : ∀ c : Nat, web_search braveKey query c (.success data) =
      pyStrip ("Search Results:\n" ++ formatBody (extractResults data) 0) := by
    intro c
    simp [web_search, hk, hne]
  exact ⟨by rw [hws]; exact splitLines_strip_format _ hne hclean,
    by rw [hws, hws]⟩

/-- Witness for the amended C6: with count 1, both of the two upstream
results appear in the output, which moreover coincides with the output for
count 99. -/
theorem web_search_all_results_witness :
    splitLines (web_search (some "k") "q" 1 (.success ⟨some ⟨some
      [⟨some "Gamma", some "uG"⟩, ⟨some "Delta", some "uD"⟩]⟩⟩)) =
      "Search Results:" :: numberedLines
        [⟨some "Gamma", some "uG"⟩, ⟨some "Delta", some "uD"⟩] 0 ∧
    web_search (some "k") "q" 1 (.success ⟨some ⟨some
      [⟨some "Gamma", some "uG"⟩, ⟨some "Delta", some "uD"⟩]⟩⟩) =
    web_search (some "k") "q" 99 (.success ⟨some ⟨some
      [⟨some "Gamma", some "uG"⟩, ⟨some "Delta", some "uD"⟩]⟩⟩) :=
  web_search_all_results (some "k") "q" 1 99
    ⟨some ⟨some [⟨some "Gamma", some "uG"⟩, ⟨some "Delta", some "uD"⟩]⟩⟩
    (by decide) (by decide) (by decide)

/-- C7: every failure mode of `web_search` (missing `BRAVE_API_KEY`, non-2xx
status, request exception, any other exception) yields the corresponding
human-readable error string; the function is total by construction, so no
exception propagates to the caller. -/
theorem web_search_failure_modes (braveKey : Option String) (query : String) (count : Nat) :
    (truthyEnv braveKey = false → ∀ u, web_search braveKey query count u =
      "Error: BRAVE_API_KEY not found in environment variables.") ∧
    (truthyEnv braveKey = true → ∀ code msg,
      web_search braveKey query count (.badStatus code msg) =
        "Error during Brave Search API request: " ++ msg) ∧
    (truthyEnv braveKey = true → ∀ msg,
      web_search braveKey query count (.requestException msg) =
        "Error during Brave Search API request: " ++ msg) ∧
    (truthyEnv braveKey = true → ∀ msg,
      web_search braveKey query count (.otherException msg) =
        "An unexpected error occurred during web search: " ++ msg) := by
  refine ⟨fun h u => ?_, fun h code msg => ?_, fun h msg => ?_, fun h msg => ?_⟩ <;>
    simp [web_search, h]

/-- Witness for C7 exercising each failure mode at concrete inputs. -/
theorem web_search_failure_modes_witness :
    web_search none "q" 5 (.requestException "net down") =
      "Error: BRAVE_API_KEY not found in environment variables." ∧
    web_search (some "k") "q" 5 (.badStatus 404 "404 Client Error") =
      "Error during Brave Search API request: " ++ "404 Client Error" ∧
    web_search (some "k") "q" 5 (.requestException "timed out") =
      "Error during Brave Search API request: " ++ "timed out" ∧
    web_search (some "k") "q" 5 (.otherException "bad json") =
      "An unexpected error occurred during web search: " ++ "bad json" :=
  ⟨(web_search_failure_modes none "q" 5).1 rfl (.requestException "net down"),
   (web_search_failure_modes (some "k") "q" 5).2.1 (by decide) 404 "404 Client Error",
   (web_search_failure_modes (some "k") "q" 5).2.2.1 (by decide) "timed out",
   (web_search_failure_modes (some "k") "q" 5).2.2.2 (by decide) "bad json"⟩

/-- C8: when the agent run of the `/query` handler raises an exception with
message `e`, the handler returns HTTP 500 whose detail is
`"An error occurred: " ++ e` (so the detail contains the exception message),
and it returns no 200 response; the handler maps the single run outcome
directly to the response, with no retry. -/
theorem handle_query_exception (e : String) :
    handle_query (.raises e) = .err500 ("An error occurred: " ++ e) ∧
    (∃ p, "An error occurred: " ++ e = p ++ e) ∧
    ∀ d, handle_query (.raises e) ≠ .ok d :=
  ⟨rfl, ⟨"An error occurred: ", rfl⟩, fun _ h => HandlerResult.noConfusion h⟩

/-- Characterization: `uvicorn.run` is reached iff all three credentials are
present and non-empty. -/
theorem startup_eq_serverStarted_iff (g b f : Option String) :
    startup g b f = .serverStarted ↔
      (truthyEnv g = true ∧ truthyEnv b = true ∧ truthyEnv f = true) := by
  cases hf : truthyEnv f <;> cases hg : truthyEnv g <;> cases hb : truthyEnv b <;>
    simp [startup, hf, hg, hb]

/-- C9: if any of the three credentials is absent from the environment the
listener is never started, and a missing `FIRECRAWL_API_KEY` raises the fatal
import-time error. -/
theorem startup_missing_credential (g b f : Option String)
    (h : g = none ∨ b = none ∨ f = none) :
    startup g b f ≠ .serverStarted ∧
    (f = none → startup g b f = .importError firecrawlMissingMsg) := by
  have hnone : ∀ x : Option String, x = none → truthyEnv x = false := by
    intro x hx; subst hx; rfl
  refine ⟨?_, ?_⟩
  · intro hs
    rw [startup_eq_serverStarted_iff] at hs
    rcases h with h | h | h <;> rw [hnone _ h] at hs <;> simp at hs
  · intro hf
    unfold startup
    rw [hnone f hf]
    simp

/-- Witness for C9 with `GOOGLE_API_KEY` absent and with `FIRECRAWL_API_KEY`
absent. -/
theorem startup_missing_credential_witness :
    startup none (some "b") (some "f") ≠ StartupResult.serverStarted ∧
    startup (some "g") (some "b") none = .importError firecrawlMissingMsg :=
  ⟨(startup_missing_credential none (some "b") (some "f") (Or.inl rfl)).1,
   (startup_missing_credential (some "g") (some "b") none (Or.inr (Or.inr rfl))).2 rfl⟩

/-- C10: when the agent run of the `/scrape` handler completes with a value
that is neither a string nor `None` (for example a dict, including an
error-shaped one), the handler returns HTTP 200 with that value as content:
the sentinel check only applies to strings. -/
theorem handle_scrape_nonstring_ok (v : PyVal)
    (hs : ∀ s, v ≠ .str s) (hn : v ≠ .pynone) :
    handle_scrape (.completes v) = .ok v := by
  match v with
  | .str s => exact absurd rfl (hs s)
  | .pynone => exact absurd rfl hn
  | .dict es => rfl
  | .other t r => rfl

/-- Witness for C10 at the error-shaped dict `[("error", "bad")]`. -/
theorem handle_scrape_nonstring_ok_witness :
    handle_scrape (.completes (.dict [("error", PyVal.str "bad")])) =
      .ok (.dict [("error", PyVal.str "bad")]) :=
  handle_scrape_nonstring_ok (.dict [("error", PyVal.str "bad")])
    (fun _ h => PyVal.noConfusion h) (fun h => PyVal.noConfusion h)

end SearchAgent
